import Mathlib

/-!
Shallow embedding of the in-memory student record store of
`src/TestFiles/Code/cls.py` (the `Student` class, the module-level
`students` list and the functions `find_student`, `add_student`,
`update_student`, `delete_student`, `list_students`).

Modelling choices:
* Python numeric values are modelled exactly: Python `int` as `Int`,
  Python `float` as `ℚ` (the code only ever sums, divides and compares
  grades, and the properties at stake are the literal expressions, so a
  rational model is faithful to the arithmetic expressions of the code).
* The grade and age arguments reaching `Student.__init__` can be Python
  values of any runtime type (the code checks `isinstance`), so they are
  modelled by a small dynamic value type `PyVal`.
* The values reaching `update_student`'s assignments always come out of
  `int(...)` and `float(...)`, hence are an `Int` and a `List ℚ`; a text
  that fails to parse raises a caught `ValueError` before any assignment,
  leaving the store unchanged, so the core update operation is modelled
  on the already-parsed values, which is where its observable effect on
  the store lies.
* The mutable module-level list `students` becomes explicit state of type
  `List Student` threaded through the operations.
* Raised-and-caught `ValueError` and the printed "Student not found."
  become an explicit `StoreError` result; Python's `None` result of
  `find_student` stays `Option`.
-/

deriving instance DecidableEq for Except

/-- Python runtime values that can be handed to `Student.__init__` as the
`age` argument or as an element of `grades`: an `int`, a `float`, a `str`
or `None`.  Only the first two satisfy `isinstance(g, (int, float))`. -/
inductive PyVal where
  | intV : Int → PyVal
  | floatV : ℚ → PyVal
  | strV : String → PyVal
  | noneV : PyVal
deriving DecidableEq, Repr

/-- Python's `isinstance(v, (int, float))` test. -/
def PyVal.isNumber : PyVal → Bool
  | .intV _ => true
  | .floatV _ => true
  | _ => false

/-- Numeric value of a `PyVal`; only meaningful on numbers (the code only
reads it after the `isinstance` check has succeeded). -/
def PyVal.toNum : PyVal → ℚ
  | .intV n => (n : ℚ)
  | .floatV q => q
  | _ => 0

/-- Integer value of a `PyVal`; only meaningful on `intV` (the code only
stores it as `age` after `isinstance(age, int)` has succeeded). -/
def PyVal.toIntVal : PyVal → Int
  | .intV n => n
  | _ => 0

/-- A stored record: `cls.py` line 8-10 sets `self.name`, `self.age`,
`self.grades` on a `Student` object. -/
structure Student where
  name : String
  age : Int
  grades : List ℚ
deriving DecidableEq, Repr

/-- The two recoverable error signals of the module: a raised
`ValueError` (with its message) caught by the caller, and the
"Student not found." outcome. -/
inductive StoreError where
  | validationError : String → StoreError
  | notFound : StoreError
deriving DecidableEq, Repr

/-- The age guard of `Student.__init__` (line 3):
`isinstance(age, int) and age > 0` (the code raises on its negation). -/
def isPosIntAge : PyVal → Bool
  | .intV n => decide (0 < n)
  | _ => false

/-- The per-grade guard of `Student.__init__` (line 5):
`isinstance(g, (int, float)) and 0 <= g <= 100`. -/
def gradeOk : PyVal → Bool
  | .intV n => decide (0 ≤ n ∧ n ≤ 100)
  | .floatV q => decide (0 ≤ q ∧ q ≤ 100)
  | _ => false

/-- `Student.__init__` (lines 2-10): raises `ValueError` when the age is
not a positive `int`, then when some grade is not a number in `[0, 100]`,
otherwise constructs the record. -/
def Student.init (name : String) (age : PyVal) (grades : List PyVal) :
    Except StoreError Student :=
  if ¬ isPosIntAge age then
    .error (.validationError "Age must be a positive integer.")
  else if ¬ grades.all gradeOk then
    .error (.validationError "Grades must be numbers between 0 and 100.")
  else
    .ok { name := name, age := age.toIntVal, grades := grades.map PyVal.toNum }

/-- `Student.average_grade` (lines 12-13):
`sum(self.grades) / len(self.grades) if self.grades else 0`. -/
def Student.average_grade (s : Student) : ℚ :=
  if s.grades.isEmpty then 0 else s.grades.sum / (s.grades.length : ℚ)

/-- Python's `str.lower()` applied character by character (on the ASCII
names appearing here, Python's and Lean's per-character lowering agree). -/
def pyLower (s : String) : String :=
  String.mk (s.data.map Char.toLower)

/-- The case-insensitive match test of the lookup loop (line 24):
`student.name.lower() == name.lower()`. -/
def nameMatches (name : String) (s : Student) : Bool :=
  pyLower s.name == pyLower name

/-- `find_student` (lines 22-26): scans `students` in order and returns
the first record whose name matches case-insensitively, `None` otherwise. -/
def find_student (name : String) : List Student → Option Student
  | [] => none
  | s :: rest =>
    if pyLower s.name == pyLower name then some s else find_student name rest

/-- `add_student` (lines 28-37): builds a `Student` through the validating
constructor and appends it; a raised `ValueError` is caught, leaving the
list untouched.  Returns the new list together with the outcome. -/
def add_student (name : String) (age : PyVal) (grades : List PyVal)
    (students : List Student) : List Student × Except StoreError Student :=
  match Student.init name age grades with
  | .ok s => (students ++ [s], .ok s)
  | .error e => (students, .error e)

/-- Effect of `update_student`'s two assignments (lines 46-47) on the
list: the object returned by `find_student` is the first match, and
mutating it in place rewrites that position of the list. -/
def setFirstMatch (name : String) (age : Int) (grades : List ℚ) :
    List Student → Option (List Student)
  | [] => none
  | s :: rest =>
    if pyLower s.name == pyLower name then
      some ({ s with age := age, grades := grades } :: rest)
    else
      (setFirstMatch name age grades rest).map (fun l => s :: l)

/-- `update_student` (lines 39-52) on already-parsed values: looks the
record up by name; if absent reports "Student not found."; if present
assigns the new `age` and `grades` to the found object (no re-validation
occurs in the source). -/
def update_student (name : String) (age : Int) (grades : List ℚ)
    (students : List Student) : Except StoreError (List Student) :=
  match setFirstMatch name age grades students with
  | some l => .ok l
  | none => .error .notFound

/-- Python's `list.remove(x)` (line 57 uses it): removes the first
element equal to `x`.  For `Student` objects Python equality is object
identity; the structural test below coincides on this call site because
the removed object is the one `find_student` just returned. -/
def removeFirst (x : Student) : List Student → List Student
  | [] => []
  | y :: rest => if y = x then rest else y :: removeFirst x rest

/-- `delete_student` (lines 54-61): looks the record up by name; if
present removes it from the list, otherwise reports "Student not found.". -/
def delete_student (name : String) (students : List Student) :
    Except StoreError (List Student) :=
  match find_student name students with
  | some s => .ok (removeFirst s students)
  | none => .error .notFound

/-- `list_students` (lines 71-76): iterates the collection in its current
order (printing each record); the observable sequence it walks is the
list itself, empty when the store is empty (no error is raised). -/
def list_students (students : List Student) : List Student := students

/-- One menu-level mutating operation of `cls.py`, with its core
arguments already parsed. -/
inductive Op where
  | create : String → PyVal → List PyVal → Op
  | update : String → Int → List ℚ → Op
  | delete : String → Op
deriving Repr

/-- State transition of the store under one operation: failed operations
leave the list untouched (errors are caught and printed in the source). -/
def step (students : List Student) : Op → List Student
  | .create n a g => (add_student n a g students).1
  | .update n a g =>
    match update_student n a g students with
    | .ok l => l
    | .error _ => students
  | .delete n =>
    match delete_student n students with
    | .ok l => l
    | .error _ => students

/-- Store state reached from the empty store by a sequence of operations
(the module starts with `students = []`). -/
def runOps (ops : List Op) : List Student := ops.foldl step []

/-! Helper lemmas about the embedded operations. -/

lemma gradeOk_of_not_number {g : PyVal} (h : g.isNumber = false) :
    gradeOk g = false := by
  cases g <;> simp_all [PyVal.isNumber, gradeOk]

lemma find_student_eq_none (name : String) (students : List Student)
    (h : ∀ s ∈ students, nameMatches name s = false) :
    find_student name students = none := by
  induction students with
  | nil => rfl
  | cons s rest ih =>
    have hs : (pyLower s.name == pyLower name) = false :=
      h s (List.mem_cons_self s rest)
    show (if pyLower s.name == pyLower name then some s
          else find_student name rest) = none
    rw [hs]
    simp only [Bool.false_eq_true, if_false]
    exact ih (fun s' hs' => h s' (List.mem_cons_of_mem _ hs'))

lemma find_student_first (name : String) (students : List Student) :
    ∀ (i : Nat) (hi : i < students.length),
      nameMatches name (students.get ⟨i, hi⟩) = true →
      (∀ j (hj : j < i), nameMatches name (students.get ⟨j, Nat.lt_trans hj hi⟩) = false) →
      find_student name students = some (students.get ⟨i, hi⟩) := by
  induction students with
  | nil => intro i hi; exact absurd hi (by simp)
  | cons s rest ih =>
    intro i hi hmatch hfirst
    cases i with
    | zero =>
      have hs : (pyLower s.name == pyLower name) = true := hmatch
      show (if pyLower s.name == pyLower name then some s
            else find_student name rest) = some s
      rw [hs]
      simp
    | succ k =>
      have h0 : (pyLower s.name == pyLower name) = false := hfirst 0 (Nat.succ_pos k)
      have hk : k < rest.length := Nat.lt_of_succ_lt_succ hi
      show (if pyLower s.name == pyLower name then some s
            else find_student name rest) = some (rest.get ⟨k, hk⟩)
      rw [h0]
      simp only [Bool.false_eq_true, if_false]
      exact ih k hk hmatch (fun j hj => hfirst (j + 1) (Nat.succ_lt_succ hj))

lemma setFirstMatch_eq_none (name : String) (age : Int) (grades : List ℚ)
    (students : List Student)
    (h : ∀ s ∈ students, nameMatches name s = false) :
    setFirstMatch name age grades students = none := by
  induction students with
  | nil => rfl
  | cons s rest ih =>
    have hs : (pyLower s.name == pyLower name) = false :=
      h s (List.mem_cons_self s rest)
    show (if pyLower s.name == pyLower name then
            some ({ s with age := age, grades := grades } :: rest)
          else (setFirstMatch name age grades rest).map (fun l => s :: l)) = none
    rw [hs]
    simp only [Bool.false_eq_true, if_false]
    rw [ih (fun s' hs' => h s' (List.mem_cons_of_mem _ hs'))]
    rfl

lemma setFirstMatch_first (name : String) (age : Int) (grades : List ℚ)
    (students : List Student) :
    ∀ (i : Nat) (hi : i < students.length),
      nameMatches name (students.get ⟨i, hi⟩) = true →
      (∀ j (hj : j < i), nameMatches name (students.get ⟨j, Nat.lt_trans hj hi⟩) = false) →
      setFirstMatch name age grades students =
        some (students.take i ++
          { students.get ⟨i, hi⟩ with age := age, grades := grades } ::
            students.drop (i + 1)) := by
  induction students with
  | nil => intro i hi; exact absurd hi (by simp)
  | cons s rest ih =>
    intro i hi hmatch hfirst
    cases i with
    | zero =>
      have hs : (pyLower s.name == pyLower name) = true := hmatch
      show (if pyLower s.name == pyLower name then
              some ({ s with age := age, grades := grades } :: rest)
            else (setFirstMatch name age grades rest).map (fun l => s :: l)) =
        some ([] ++ { s with age := age, grades := grades } :: rest)
      rw [hs]
      simp
    | succ k =>
      have h0 : (pyLower s.name == pyLower name) = false := hfirst 0 (Nat.succ_pos k)
      have hk : k < rest.length := Nat.lt_of_succ_lt_succ hi
      show (if pyLower s.name == pyLower name then
              some ({ s with age := age, grades := grades } :: rest)
            else (setFirstMatch name age grades rest).map (fun l => s :: l)) =
        some (s :: rest.take k ++
          { rest.get ⟨k, hk⟩ with age := age, grades := grades } :: rest.drop (k + 1))
      rw [h0]
      simp only [Bool.false_eq_true, if_false]
      rw [ih k hk hmatch (fun j hj => hfirst (j + 1) (Nat.succ_lt_succ hj))]
      rfl

lemma removeFirst_eq_take_drop (students : List Student) :
    ∀ (i : Nat) (hi : i < students.length),
      (∀ j (hj : j < i), students.get ⟨j, Nat.lt_trans hj hi⟩ ≠ students.get ⟨i, hi⟩) →
      removeFirst (students.get ⟨i, hi⟩) students =
        students.take i ++ students.drop (i + 1) := by
  induction students with
  | nil => intro i hi; exact absurd hi (by simp)
  | cons s rest ih =>
    intro i hi hne
    cases i with
    | zero =>
      show (if s = s then rest else s :: removeFirst s rest) = [] ++ rest
      simp
    | succ k =>
      have hk : k < rest.length := Nat.lt_of_succ_lt_succ hi
      have h0 : s ≠ rest.get ⟨k, hk⟩ := hne 0 (Nat.succ_pos k)
      show (if s = rest.get ⟨k, hk⟩ then rest
            else s :: removeFirst (rest.get ⟨k, hk⟩) rest) =
        s :: rest.take k ++ rest.drop (k + 1)
      rw [if_neg h0]
      rw [ih k hk (fun j hj => hne (j + 1) (Nat.succ_lt_succ hj))]
      rfl

lemma not_match_take_drop (name : String) (students : List Student) :
    ∀ (i : Nat),
      (∀ j (hj : j < students.length), j ≠ i →
        nameMatches name (students.get ⟨j, hj⟩) = false) →
      ∀ s ∈ students.take i ++ students.drop (i + 1), nameMatches name s = false := by
  induction students with
  | nil => intro i _ s hs; simp at hs
  | cons a rest ih =>
    intro i h s hs
    cases i with
    | zero =>
      simp only [List.take_zero, List.nil_append, List.drop_succ_cons, List.drop_zero] at hs
      obtain ⟨n, hn⟩ := List.get_of_mem hs
      exact hn ▸ h (n.val + 1) (Nat.succ_lt_succ n.isLt) (Nat.succ_ne_zero n.val)
    | succ k =>
      simp only [List.take_succ_cons, List.drop_succ_cons, List.cons_append,
        List.mem_cons] at hs
      rcases hs with rfl | hs
      · exact h 0 (Nat.succ_pos _) (Ne.symm (Nat.succ_ne_zero k))
      · exact ih k (fun j hj hjk => h (j + 1) (Nat.succ_lt_succ hj)
          (fun he => hjk (Nat.succ_injective he))) s hs

/-! Claim theorems. -/

/-- C1: the claim states that every create or update whose age is not a
positive integer signals `ValidationError` and leaves the store unchanged,
update applying the same age rule as create.  The code violates this:
`update_student` assigns the parsed age directly (lines 46-47) with no
re-validation, so updating Ann with `age = -5` succeeds, reports success
and stores the negative age. -/
theorem c1_update_skips_age_validation :
    update_student "Ann" (-5) [50]
      [{ name := "Ann", age := 20, grades := [90, 80] }] =
      .ok [{ name := "Ann", age := -5, grades := [50] }] := by decide

/-- C2: the claim states that every create or update whose scores contain
a value outside `[0, 100]` signals `ValidationError` and leaves the store
unchanged.  The code violates this for update: `update_student` assigns
the parsed grades directly with no range check, so updating Ann with
`scores = [150]` succeeds and stores the out-of-range grade. -/
theorem c2_update_skips_score_validation :
    update_student "Ann" 21 [150]
      [{ name := "Ann", age := 20, grades := [90, 80] }] =
      .ok [{ name := "Ann", age := 21, grades := [150] }] := by decide

/-- C3: the claim states that in every state reachable from the empty
store each record has `age > 0` and all scores in `[0, 100]`.  The code
violates this: after a valid create, an update with `age = -5` and
`scores = [150]` is applied unvalidated, reaching a state whose single
record breaks both invariants. -/
theorem c3_invariant_violated_by_update :
    runOps [.create "Ann" (.intV 20) [.intV 90], .update "Ann" (-5) [150]] =
      [{ name := "Ann", age := -5, grades := [150] }] ∧
    ∃ s ∈ runOps [.create "Ann" (.intV 20) [.intV 90], .update "Ann" (-5) [150]],
      ¬ (0 < s.age ∧ ∀ v ∈ s.grades, 0 ≤ v ∧ v ≤ 100) := by
  constructor
  · decide
  · refine ⟨{ name := "Ann", age := -5, grades := [150] }, by decide, ?_⟩
    intro hinv
    exact absurd hinv.1 (by decide)

/-- C5: `find_student` scans the collection in order and returns the
first record whose stored name equals the given name case-insensitively
(`None`, the code's `NotFound` signal, when no record matches); with
several case-insensitive homonyms the earliest-inserted one is returned. -/
theorem c5_find_returns_first_match (name : String) (students : List Student) :
    ((∀ s ∈ students, nameMatches name s = false) →
      find_student name students = none) ∧
    (∀ (i : Nat) (hi : i < students.length),
      nameMatches name (students.get ⟨i, hi⟩) = true →
      (∀ j (hj : j < i), nameMatches name (students.get ⟨j, Nat.lt_trans hj hi⟩) = false) →
      find_student name students = some (students.get ⟨i, hi⟩)) :=
  ⟨find_student_eq_none name students, find_student_first name students⟩

/-- Witness for C5 on a concrete store with two case-insensitive
homonyms: the earliest-inserted match is returned. -/
theorem c5_find_returns_first_match_witness :
    find_student "ann"
      [{ name := "Ann", age := 20, grades := [90] },
       { name := "ANN", age := 21, grades := [80] }] =
      some { name := "Ann", age := 20, grades := [90] } :=
  (c5_find_returns_first_match "ann"
      [{ name := "Ann", age := 20, grades := [90] },
       { name := "ANN", age := 21, grades := [80] }]).2
    0 (by decide) (by decide) (fun j hj => absurd hj (Nat.not_lt_zero j))

/-- C7: `average_grade` equals the sum of the record's grades divided by
their count, and equals `0` on an empty grade list; it is a pure function
of the record (it takes no store and returns only the number). -/
theorem c7_average_is_sum_div_count (s : Student) :
    Student.average_grade s = s.grades.sum / (s.grades.length : ℚ) ∧
    (s.grades = [] → Student.average_grade s = 0) := by
  constructor
  · rcases h : s.grades with _ | ⟨a, l⟩
    · simp [Student.average_grade, h]
    · simp [Student.average_grade, h]
  · intro h
    simp [Student.average_grade, h]

/-- Witness for C7 at a concrete record with no grades. -/
theorem c7_average_is_sum_div_count_witness :
    Student.average_grade { name := "Ann", age := 20, grades := [] } = 0 :=
  (c7_average_is_sum_div_count { name := "Ann", age := 20, grades := [] }).2 rfl

/-- C4: a successful update on the record that is the first
case-insensitive match for the given name rewrites only that record's
age and grades: the records before it and after it are returned verbatim
in their order, and the matched record keeps its name and position. -/
theorem c4_update_replaces_in_place (name : String) (age : Int) (grades : List ℚ)
    (students : List Student) (i : Nat) (hi : i < students.length)
    (hmatch : nameMatches name (students.get ⟨i, hi⟩) = true)
    (hfirst : ∀ j (hj : j < i),
      nameMatches name (students.get ⟨j, Nat.lt_trans hj hi⟩) = false) :
    update_student name age grades students =
      .ok (students.take i ++
        { name := (students.get ⟨i, hi⟩).name, age := age, grades := grades } ::
          students.drop (i + 1)) := by
  unfold update_student
  rw [setFirstMatch_first name age grades students i hi hmatch hfirst]

/-- Witness for C4: updating `"ann"` in a two-record store rewrites the
second record in place and leaves the first untouched. -/
theorem c4_update_replaces_in_place_witness :
    update_student "ann" 21 [100]
      [{ name := "Bob", age := 30, grades := [50] },
       { name := "Ann", age := 20, grades := [90, 80] }] =
      .ok [{ name := "Bob", age := 30, grades := [50] },
           { name := "Ann", age := 21, grades := [100] }] := by
  have h := c4_update_replaces_in_place "ann" 21 [100]
    [{ name := "Bob", age := 30, grades := [50] },
     { name := "Ann", age := 20, grades := [90, 80] }] 1 (by decide) (by decide)
    (by
      intro j hj
      cases j with
      | zero =>
        exact (by decide :
          nameMatches "ann" { name := "Bob", age := 30, grades := [50] } = false)
      | succ k => exact absurd hj (by omega))
  exact h

/-- C6: deleting a name present in the store removes exactly the first
case-insensitive match and keeps every other record in its relative
order; when no other record matches the name, a subsequent lookup
reports no match and the removed record is no longer in the listing. -/
theorem c6_delete_removes_first_match (name : String) (students : List Student)
    (i : Nat) (hi : i < students.length)
    (hmatch : nameMatches name (students.get ⟨i, hi⟩) = true)
    (hfirst : ∀ j (hj : j < i),
      nameMatches name (students.get ⟨j, Nat.lt_trans hj hi⟩) = false) :
    delete_student name students = .ok (students.take i ++ students.drop (i + 1)) ∧
    ((∀ j (hj : j < students.length), j ≠ i →
        nameMatches name (students.get ⟨j, hj⟩) = false) →
      find_student name (students.take i ++ students.drop (i + 1)) = none ∧
      students.get ⟨i, hi⟩ ∉ students.take i ++ students.drop (i + 1)) := by
  have hne : ∀ j (hj : j < i),
      students.get ⟨j, Nat.lt_trans hj hi⟩ ≠ students.get ⟨i, hi⟩ := by
    intro j hj he
    have hf := hfirst j hj
    rw [he, hmatch] at hf
    exact Bool.noConfusion hf
  have hdel : delete_student name students =
      .ok (students.take i ++ students.drop (i + 1)) := by
    unfold delete_student
    rw [find_student_first name students i hi hmatch hfirst]
    show Except.ok (removeFirst (students.get ⟨i, hi⟩) students) =
      Except.ok (students.take i ++ students.drop (i + 1))
    rw [removeFirst_eq_take_drop students i hi hne]
  refine ⟨hdel, fun hno => ?_⟩
  have hall := not_match_take_drop name students i hno
  refine ⟨find_student_eq_none name _ hall, fun hmem => ?_⟩
  have hfalse := hall _ hmem
  rw [hmatch] at hfalse
  exact Bool.noConfusion hfalse

/-- Witness for C6: deleting `"ann"` from a two-record store removes the
matching first record, after which the lookup reports no match and the
record is gone from the listing. -/
theorem c6_delete_removes_first_match_witness :
    delete_student "ann"
      [{ name := "Ann", age := 20, grades := [90] },
       { name := "Bob", age := 30, grades := [50] }] =
      .ok [{ name := "Bob", age := 30, grades := [50] }] ∧
    find_student "ann" [{ name := "Bob", age := 30, grades := [50] }] = none ∧
    ({ name := "Ann", age := 20, grades := [90] } : Student) ∉
      [{ name := "Bob", age := 30, grades := [50] }] := by
  have h := c6_delete_removes_first_match "ann"
    [{ name := "Ann", age := 20, grades := [90] },
     { name := "Bob", age := 30, grades := [50] }] 0 (by decide) (by decide)
    (fun j hj => absurd hj (Nat.not_lt_zero j))
  have h2 := h.2 (by
    intro j hj hne
    cases j with
    | zero => exact absurd rfl hne
    | succ k =>
      cases k with
      | zero =>
        exact (by decide :
          nameMatches "ann" { name := "Bob", age := 30, grades := [50] } = false)
      | succ m =>
        exact absurd hj (by
          simp only [List.length_cons, List.length_nil]
          omega))
  exact ⟨h.1, h2.1, h2.2⟩

/-- C8: a successful create appends the new record at the end of the
collection and returns it, so the listing afterwards is the previous
records in order followed by the new one; the listing of the empty store
is the empty sequence, not an error. -/
theorem c8_create_appends_and_lists_in_order :
    (∀ (name : String) (age : PyVal) (grades : List PyVal)
        (students : List Student) (s : Student),
      Student.init name age grades = .ok s →
      add_student name age grades students = (students ++ [s], .ok s) ∧
      list_students (add_student name age grades students).1 =
        list_students students ++ [s]) ∧
    list_students [] = ([] : List Student) := by
  refine ⟨?_, rfl⟩
  intro name age grades students s h
  unfold add_student
  rw [h]
  exact ⟨rfl, rfl⟩

/-- Witness for C8: creating Ann in the empty store appends her record
and returns it. -/
theorem c8_create_appends_and_lists_in_order_witness :
    add_student "Ann" (.intV 20) [.intV 90, .intV 80] [] =
      ([{ name := "Ann", age := 20, grades := [90, 80] }],
        .ok { name := "Ann", age := 20, grades := [90, 80] }) :=
  (c8_create_appends_and_lists_in_order.1 "Ann" (.intV 20) [.intV 90, .intV 80]
    [] { name := "Ann", age := 20, grades := [90, 80] } (by decide)).1

/-- C9: on a name with no case-insensitive match, `find_student` returns
the no-match signal, `update_student` and `delete_student` report
"Student not found.", and the store is left unchanged. -/
theorem c9_no_match_not_found (name : String) (age : Int) (grades : List ℚ)
    (students : List Student)
    (h : ∀ s ∈ students, nameMatches name s = false) :
    find_student name students = none ∧
    update_student name age grades students = .error .notFound ∧
    delete_student name students = .error .notFound ∧
    step students (.update name age grades) = students ∧
    step students (.delete name) = students := by
  have hf := find_student_eq_none name students h
  have hs := setFirstMatch_eq_none name age grades students h
  have hu : update_student name age grades students = .error .notFound := by
    unfold update_student
    rw [hs]
  have hd : delete_student name students = .error .notFound := by
    unfold delete_student
    rw [hf]
  refine ⟨hf, hu, hd, ?_, ?_⟩
  · show (match update_student name age grades students with
          | .ok l => l
          | .error _ => students) = students
    rw [hu]
  · show (match delete_student name students with
          | .ok l => l
          | .error _ => students) = students
    rw [hd]

/-- Witness for C9 on a store that holds only Bob, queried for Ann. -/
theorem c9_no_match_not_found_witness :
    find_student "Ann" [{ name := "Bob", age := 30, grades := [50] }] = none ∧
    update_student "Ann" 21 [100] [{ name := "Bob", age := 30, grades := [50] }] =
      .error .notFound ∧
    delete_student "Ann" [{ name := "Bob", age := 30, grades := [50] }] =
      .error .notFound ∧
    step [{ name := "Bob", age := 30, grades := [50] }] (.update "Ann" 21 [100]) =
      [{ name := "Bob", age := 30, grades := [50] }] ∧
    step [{ name := "Bob", age := 30, grades := [50] }] (.delete "Ann") =
      [{ name := "Bob", age := 30, grades := [50] }] :=
  c9_no_match_not_found "Ann" 21 [100]
    [{ name := "Bob", age := 30, grades := [50] }] (by decide)

/-- C10: the validating constructor used by create rejects any grades
list containing a non-number (the `isinstance` check of line 5), so the
creation reports a `ValueError` and the store is unchanged. -/
theorem c10_nonnumeric_score_rejected (name : String) (age : PyVal)
    (grades : List PyVal) (students : List Student) (g : PyVal)
    (hg : g ∈ grades) (hnum : g.isNumber = false) :
    (add_student name age grades students).1 = students ∧
    ∃ m, (add_student name age grades students).2 =
      .error (.validationError m) := by
  have hinit : ∃ m, Student.init name age grades =
      .error (.validationError m) := by
    unfold Student.init
    by_cases ha : isPosIntAge age = true
    · have hgo := gradeOk_of_not_number hnum
      have hall : grades.all gradeOk = false := by
        cases hcase : grades.all gradeOk with
        | false => rfl
        | true =>
          have := List.all_eq_true.mp hcase g hg
          rw [hgo] at this
          exact Bool.noConfusion this
      refine ⟨"Grades must be numbers between 0 and 100.", ?_⟩
      rw [if_neg (by simp [ha]), if_pos (by simp [hall])]
    · exact ⟨"Age must be a positive integer.", if_pos ha⟩
  obtain ⟨m, hm⟩ := hinit
  unfold add_student
  rw [hm]
  exact ⟨rfl, m, rfl⟩

/-- Witness for C10: a string grade is rejected and the empty store stays
empty. -/
theorem c10_nonnumeric_score_rejected_witness :
    (add_student "Ann" (.intV 20) [.strV "oops"] []).1 = ([] : List Student) ∧
    ∃ m, (add_student "Ann" (.intV 20) [.strV "oops"] []).2 =
      .error (.validationError m) :=
  c10_nonnumeric_score_rejected "Ann" (.intV 20) [.strV "oops"] []
    (.strV "oops") (by decide) rfl
